import Mathlib

/-!
Verification development for `kip.py` ("Keep Internet Passwords"), a small
command-line password manager.  Python strings are modelled as `List Char`
(`Str`), the filesystem under the storage directory `~/.kip/` as an
association list from basenames to file contents, the external gpg
encrypt/decrypt subprocesses as opaque function fields of the environment,
the clipboard utility (`xclip`) as a boolean availability flag, the piped
stdin (when `sys.stdin.isatty()` is false) as an optional string, and the
`random.SystemRandom` stream consumed by `pwgen` as a function
`Nat → Fin 62` giving the index chosen from the 62-character alphabet at
each draw.  Console output is modelled as a list of `Event`s, and a Python
process outcome as `PyResult`: a normal `return` of an exit code, or
`crash` for an uncaught exception (`IndexError`, `TypeError`).
-/

set_option autoImplicit false

namespace Kip

/-- Python `str` modelled as a list of characters. -/
abbrev Str := List Char

/-- `HOME = os.path.expanduser('~/.kip/')` (kip.py line 35); the
`expanduser` step is kept symbolic. -/
def HOME : Str := "~/.kip/".toList

/-- `PW_LEN = 19` (kip.py line 67). -/
def PW_LEN : Nat := 19

/-- The literal last-argument flag `'--print'` tested by `main`
(kip.py line 91). -/
def printFlag : Str := "--print".toList

/-- A line printed to the console (or handed to the clipboard subprocess)
by kip.py.  `usernameOut` stands for `print(bold(username))` (the ANSI
bold wrapper is elided), `clipboard` for a successful
`copy_to_clipboard`, `clipboardWarning` for the two warning lines printed
when spawning `xclip` raises `OSError`, `didYouMean` for the
`'Did you mean:'` block printed by `guess`, `guessNotice` for
`'Guessing <basename>'`, and `fileNotFoundMsg` for
`'File not found: <filename>'`. -/
inductive Event where
  | usageOut
  | guessNotice (filename : Str)
  | didYouMean (options : List Str)
  | fileNotFoundMsg (filename : Str)
  | usernameOut (username : Str)
  | passwordOut (password : Str)
  | clipboard (password : Str)
  | clipboardWarning (password : Str)
  | notesOut (notes : Str)
deriving DecidableEq, Repr

/-- Outcome of running a kip.py function: a normal return value, or an
uncaught Python exception (`IndexError` from `parts[1]`, `TypeError` from
a bad `create(*argv[1:])` arity). -/
inductive PyResult where
  | ret (code : Nat)
  | crash
deriving DecidableEq, Repr

/-- The three-field account record of the spec's data model. -/
structure Record where
  password : Str
  username : Str
  notes : Str
deriving DecidableEq, Repr

/-- Process environment: files in `HOME` (basename ↦ raw file contents),
the gpg decrypt/encrypt transforms, whether `xclip` is invocable, the
piped stdin contents (`none` when stdin is a tty), and the
`SystemRandom.choice` index stream used by `pwgen`. -/
structure Env where
  files : List (Str × Str)
  decrypt : Str → Str
  encrypt : Str → Str
  clipOk : Bool
  stdinPipe : Option Str
  choice : Nat → Fin 62

/-- `TEMPLATE.format(password=…, username=…, notes=…)` (kip.py lines
68-70, 113-116): `password + '\n' + username + '\n' + notes`. -/
def TEMPLATE (password username notes : Str) : Str :=
  password ++ '\n' :: username ++ '\n' :: notes

/-- Python 2 `str.split('\n')` (kip.py line 173): split on every
newline; the result is never empty, and `''.split('\n') == ['']`. -/
def splitNL : Str → List Str
  | [] => [[]]
  | c :: rest =>
    if c = '\n' then [] :: splitNL rest
    else
      match splitNL rest with
      | [] => [[c]]
      | h :: t => (c :: h) :: t

/-- `'\n'.join(parts)` (kip.py line 185). -/
def joinNL : List Str → Str
  | [] => []
  | [x] => x
  | x :: xs => x ++ '\n' :: joinNL xs

/-- Characters stripped by Python 2 `str.strip()`:
space, `\t`, `\n`, `\r`, `\v` (0x0b) and `\f` (0x0c). -/
def pyIsSpace (c : Char) : Bool :=
  c = ' ' ∨ c = '\t' ∨ c = '\n' ∨ c = '\r' ∨ c = Char.ofNat 11 ∨ c = Char.ofNat 12

/-- Python `str.strip()` (kip.py line 105): remove leading and trailing
whitespace. -/
def pythonStrip (s : Str) : Str :=
  ((s.dropWhile pyIsSpace).reverse.dropWhile pyIsSpace).reverse

/-- `alphabet = string.letters[0:52] + string.digits` (kip.py line 132):
the 52 ASCII letters (Python 2 `string.letters` in the C locale is the
lowercase letters followed by the uppercase ones) plus the 10 digits. -/
def alphabet : Str :=
  "abcdefghijklmnopqrstuvwxyzABCDEFGHIJKLMNOPQRSTUVWXYZ".toList.take 52
    ++ "0123456789".toList

/-- `pwgen(length)` (kip.py lines 128-134):
`''.join(myrand.choice(alphabet) for _ in range(length))`, with the
`SystemRandom` draws supplied by the index stream `choice`. -/
def pwgen (choice : Nat → Fin 62) (length : Nat) : Str :=
  (List.range length).map (fun i => alphabet.getD (choice i).val 'a')

/-- Does `pat` occur as a contiguous substring of the second argument?
This models the filename part of the glob pattern `*name*`
(kip.py line 192) for names free of glob metacharacters. -/
def listContains (pat : Str) : Str → Bool
  | [] => decide (pat = [])
  | c :: rest => decide (pat = (c :: rest).take pat.length) || listContains pat rest

/-- `glob.glob('%s*%s*' % (HOME, name))` (kip.py line 192), restricted to
the basenames of the files in the storage directory. -/
def globMatches (files : List Str) (name : Str) : List Str :=
  files.filter (fun f => listContains name f)

/-- `guess(name)` (kip.py lines 190-201): if the glob has exactly one
match return it (`globs[0]`), otherwise print `'Did you mean:'` with the
candidates and raise `IOError`.  The `Except.error` payload is the candidate
list that the code prints before raising. -/
def guess (files : List Str) (name : Str) : Except (List Str) Str :=
  let globs := globMatches files name
  if globs.length = 1 then Except.ok (globs.headD [])
  else Except.error globs

/-- `os.path.exists(HOME + name)` combined with `open(...).read()`:
look the basename up in the storage directory. -/
def lookupFile (files : List (Str × Str)) (name : Str) : Option Str :=
  match files with
  | [] => none
  | (k, v) :: rest => if k = name then some v else lookupFile rest name

/-- `open(HOME + name, 'wt').write(enc)` (kip.py lines 119-121):
create-or-overwrite the file named `name`. -/
def writeFile (files : List (Str × Str)) (name contents : Str) : List (Str × Str) :=
  (name, contents) :: files.filter (fun p => decide (p.1 ≠ name))

/-- `copy_to_clipboard(msg)` (kip.py lines 204-212): pipe `msg` into
`xclip`; if spawning it raises `OSError`, print a warning instead
(soft failure, nothing propagated). -/
def copy_to_clipboard (clipOk : Bool) (msg : Str) : List Event :=
  if clipOk then [Event.clipboard msg] else [Event.clipboardWarning msg]

/-- The tail of `show` after decryption (kip.py lines 173-187), acting on
`parts = contents.split('\n')`: `password = parts[0]`,
`username = parts[1]` (an uncaught `IndexError` — `crash` — when fewer
than 2 parts exist), print the username, then either print the password
(`--print`) or send it to the clipboard, then print
`'\n'.join(parts[2:])` when `len(parts) > 2`, and return 0.  `pre` holds
the events already printed before this point (the guess notice, when
resolution was fuzzy). -/
def showParts (clipOk : Bool) (parts : List Str) (is_visible : Bool)
    (pre : List Event) : List Event × PyResult :=
  match parts with
  | password :: username :: rest =>
      let ev1 := pre ++ [Event.usernameOut username]
      let ev2 := ev1 ++ (if is_visible then [Event.passwordOut password]
                         else copy_to_clipboard clipOk password)
      let ev3 := ev2 ++ (if 0 < rest.length then [Event.notesOut (joinNL rest)] else [])
      (ev3, PyResult.ret 0)
  | _ => (pre, PyResult.crash)

/-- kip.py lines 171-187: split the decrypted contents on newlines and
process them. -/
def showContents (clipOk : Bool) (contents : Str) (is_visible : Bool)
    (pre : List Event) : List Event × PyResult :=
  showParts clipOk (splitNL contents) is_visible pre

/-- `show(name, is_visible)` (kip.py lines 157-187).  Resolution: if no
file is named exactly `name`, call `guess`; a failed guess prints its
candidates and raises `IOError`, which `show` catches, printing
`'File not found: <HOME + name>'` and returning 1.  A successful guess
prints `'Guessing <basename>'` and proceeds on the guessed file.  The
final `lookupFile` fallback models the `IOError` branch for a vanished
file and is unreachable, since the guess result comes from the directory
listing. -/
def show' (env : Env) (name : Str) (is_visible : Bool) : List Event × PyResult :=
  match lookupFile env.files name with
  | some enc => showContents env.clipOk (env.decrypt enc) is_visible []
  | none =>
    match guess (env.files.map Prod.fst) name with
    | Except.error opts =>
        ([Event.didYouMean opts, Event.fileNotFoundMsg (HOME ++ name)], PyResult.ret 1)
    | Except.ok g =>
        match lookupFile env.files g with
        | some enc => showContents env.clipOk (env.decrypt enc) is_visible [Event.guessNotice g]
        | none => ([Event.guessNotice g, Event.fileNotFoundMsg (HOME ++ g)], PyResult.ret 1)

/-- The password source of `create` (kip.py lines 101-108): if stdin is a
pipe, `sys.stdin.read().strip()`; otherwise `pwgen(PW_LEN)`. -/
def createPassword (env : Env) : Str :=
  match env.stdinPipe with
  | some s => pythonStrip s
  | none => pwgen env.choice PW_LEN

/-- `create(name, username, notes='')` (kip.py lines 101-125): choose the
password, fill `TEMPLATE`, encrypt, write the file, then
`return show(name)` — the chained show with the default
`is_visible=False`.  The modified environment is returned as the final
component. -/
def create (env : Env) (name username notes : Str) : List Event × PyResult × Env :=
  let password := createPassword env
  let file_contents := TEMPLATE password username notes
  let env' := { env with files := writeFile env.files name (env.encrypt file_contents) }
  ((show' env' name false).1, (show' env' name false).2, env')

/-- `argv[len(argv) - 1]` for the dispatch test in `main`
(kip.py line 91). -/
def lastArg : List Str → Str
  | [] => []
  | [x] => x
  | _ :: rest => lastArg rest

/-- `main(argv)` (kip.py lines 76-98): with no arguments print the usage
and return 1; otherwise set `is_visible = (argv[-1] == '--print')` and
dispatch — `show(argv[1], is_visible)` when `len(argv) == 2` or
`is_visible`, else `create(*argv[1:])` (which raises `TypeError` — a
crash — when more than 3 positional arguments are passed).  `sys.argv`
is never empty, so the `[]` arm is unreachable. -/
def main (env : Env) (argv : List Str) : List Event × PyResult × Env :=
  match argv with
  | [] => ([], PyResult.crash, env)
  | [_] => ([Event.usageOut], PyResult.ret 1, env)
  | _ :: a1 :: rest =>
    let is_visible := decide (lastArg (a1 :: rest) = printFlag)
    if argv.length = 2 ∨ is_visible then
      ((show' env a1 is_visible).1, (show' env a1 is_visible).2, env)
    else
      match rest with
      | [username] => create env a1 username []
      | [username, notes] => create env a1 username notes
      | _ => ([], PyResult.crash, env)

/-- `deserialize` of the spec's RecordCodec, read off kip.py lines
173-185: `parts[0]` is the password, `parts[1]` the username, and the
notes are `'\n'.join(parts[2:])` when `len(parts) > 2`, else empty.
`none` models the `IndexError` when fewer than 2 parts exist. -/
def deserialize (contents : Str) : Option Record :=
  match splitNL contents with
  | password :: username :: rest =>
      some ⟨password, username, if 0 < rest.length then joinNL rest else []⟩
  | _ => none

/-- The password field (first line of the decrypted contents) of the
record stored under `name`, if any. -/
def storedPassword (env : Env) (name : Str) : Option Str :=
  (lookupFile env.files name).map (fun c => (splitNL (env.decrypt c)).headD [])

/-- Events that the body of `show` prints after resolution: everything
except the usage text and the resolution notices. -/
def isOutputEvent : Event → Bool
  | Event.usernameOut _ => true
  | Event.passwordOut _ => true
  | Event.clipboard _ => true
  | Event.clipboardWarning _ => true
  | Event.notesOut _ => true
  | _ => false

/-- A baseline environment for concrete runs: gpg modelled as the
identity transform, clipboard available, stdin a tty, and the random
stream constantly the first alphabet index. -/
def baseEnv : Env :=
  { files := [], decrypt := id, encrypt := id, clipOk := true,
    stdinPipe := none, choice := fun _ => 0 }

/-- A store whose single file decrypts to `"abc"`: one line only. -/
def envShort : Env := { baseEnv with files := [("site".toList, "abc".toList)] }

/-- A store with two files both containing `"ebay"` as a substring. -/
def envTwo : Env :=
  { baseEnv with
    files := [("ebay.com".toList, "p\nu\n".toList),
              ("ebay.co.uk".toList, "q\nv\n".toList)] }

/-- A store holding `ebay.com` and a second file that contains
`"ebay.com"` as a proper substring. -/
def envExact : Env :=
  { baseEnv with
    files := [("ebay.com".toList, "p\nalice\n".toList),
              ("ebay.com.old".toList, "q\nbob\n".toList)] }

/-- A store with one well-formed record but no invocable clipboard
utility. -/
def envNoClip : Env :=
  { baseEnv with
    files := [("gmail.com".toList, "pw\nalice\nnote".toList)],
    clipOk := false }

/-- Stdin is a pipe carrying `" S3cret\n"`. -/
def envPiped : Env := { baseEnv with stdinPipe := some " S3cret\n".toList }

/-- Stdin is a pipe carrying only a newline. -/
def envPipedEmpty : Env := { baseEnv with stdinPipe := some "\n".toList }

theorem splitNL_ne_nil (s : Str) : splitNL s ≠ [] := by
  induction s with
  | nil => simp [splitNL]
  | cons c rest ih =>
    simp only [splitNL]
    split
    · simp
    · cases hs : splitNL rest with
      | nil => simp
      | cons a t => simp

theorem splitNL_append (p rest : Str) (hp : '\n' ∉ p) :
    splitNL (p ++ '\n' :: rest) = p :: splitNL rest := by
  induction p with
  | nil => simp [splitNL]
  | cons c p' ih =>
    have hc : ¬c = '\n' := fun h => hp (by simp [h])
    have hp' : '\n' ∉ p' := fun h => hp (List.mem_cons_of_mem _ h)
    simp only [List.cons_append, splitNL, if_neg hc]
    have ih' : splitNL (p'.append ('\n' :: rest)) = p' :: splitNL rest := ih hp'
    rw [ih']

theorem joinNL_splitNL (s : Str) : joinNL (splitNL s) = s := by
  induction s with
  | nil => rfl
  | cons c rest ih =>
    simp only [splitNL]
    split
    · rename_i hc
      cases hs : splitNL rest with
      | nil => exact absurd hs (splitNL_ne_nil rest)
      | cons a t =>
        rw [hs] at ih
        subst hc
        show '\n' :: joinNL (a :: t) = '\n' :: rest
        rw [ih]
    · rename_i hc
      cases hs : splitNL rest with
      | nil => exact absurd hs (splitNL_ne_nil rest)
      | cons a t =>
        rw [hs] at ih
        show joinNL ((c :: a) :: t) = c :: rest
        cases t with
        | nil => simp [joinNL] at ih ⊢; rw [ih]
        | cons b t' =>
          show (c :: a) ++ '\n' :: joinNL (b :: t') = c :: rest
          rw [← ih]
          rfl

theorem splitNL_TEMPLATE (p u n : Str) (hp : '\n' ∉ p) (hu : '\n' ∉ u) :
    splitNL (TEMPLATE p u n) = p :: u :: splitNL n := by
  have ht : TEMPLATE p u n = p ++ '\n' :: (u ++ '\n' :: n) := by
    simp [TEMPLATE]
  rw [ht, splitNL_append p _ hp, splitNL_append u n hu]

theorem lookupFile_of_mem (files : List (Str × Str)) (g : Str)
    (h : g ∈ files.map Prod.fst) : ∃ v, lookupFile files g = some v := by
  induction files with
  | nil => simp at h
  | cons kv rest ih =>
    obtain ⟨k, v⟩ := kv
    by_cases hk : k = g
    · exact ⟨v, by simp [lookupFile, hk]⟩
    · have hmem : g ∈ rest.map Prod.fst := by
        simp only [List.map_cons, List.mem_cons] at h
        rcases h with h | h
        · exact absurd h.symm hk
        · exact h
      obtain ⟨v', hv⟩ := ih hmem
      exact ⟨v', by simp [lookupFile, hk, hv]⟩

theorem lookupFile_writeFile (files : List (Str × Str)) (name contents : Str) :
    lookupFile (writeFile files name contents) name = some contents := by
  simp [writeFile, lookupFile]

theorem alphabet_length : alphabet.length = 62 := by decide

theorem alphabet_alphanumeric : ∀ c ∈ alphabet, c.isAlphanum = true := by decide

theorem newline_not_mem_alphabet : '\n' ∉ alphabet := by decide

theorem getD_alphabet_mem : ∀ j : Fin 62, alphabet.getD j.val 'a' ∈ alphabet := by decide

theorem pwgen_length (choice : Nat → Fin 62) (n : Nat) :
    (pwgen choice n).length = n := by
  simp [pwgen]

theorem pwgen_mem (choice : Nat → Fin 62) (n : Nat) :
    ∀ c ∈ pwgen choice n, c ∈ alphabet := by
  intro c hc
  simp only [pwgen, List.mem_map, List.mem_range] at hc
  obtain ⟨i, _, hi⟩ := hc
  exact hi ▸ getD_alphabet_mem (choice i)

theorem pwgen_no_newline (choice : Nat → Fin 62) (n : Nat) :
    '\n' ∉ pwgen choice n :=
  fun h => newline_not_mem_alphabet (pwgen_mem choice n _ h)

theorem showParts_events (clipOk : Bool) (parts : List Str) (vis : Bool)
    (pre : List Event) (e : Event) (he : e ∈ (showParts clipOk parts vis pre).1) :
    e ∈ pre ∨ isOutputEvent e = true := by
  rcases parts with _ | ⟨p, _ | ⟨u, rest⟩⟩
  · exact Or.inl he
  · exact Or.inl he
  · simp only [showParts] at he
    rcases List.mem_append.mp he with h1 | h1
    · rcases List.mem_append.mp h1 with h2 | h2
      · rcases List.mem_append.mp h2 with h3 | h3
        · exact Or.inl h3
        · right; simp only [List.mem_singleton] at h3; subst h3; rfl
      · right
        cases vis <;> cases clipOk <;> simp [copy_to_clipboard] at h2 <;> subst h2 <;> rfl
    · right
      by_cases hr : 0 < rest.length
      · simp only [if_pos hr, List.mem_singleton] at h1; subst h1; rfl
      · simp only [if_neg hr, List.not_mem_nil] at h1

/-- Claim C1, counterexample: a stored file decrypting to `"abc"` — a
single line, so fewer than 2 — makes `show` crash with an uncaught
out-of-bounds indexing error (`IndexError` at `parts[1]`, kip.py line
176); it does not fail with any `MalformedRecord` error, and no such
error exists in the code. -/
theorem c1_counterexample :
    show' envShort "site".toList false = ([], PyResult.crash) := by decide

/-- Claim C1, amended: for every decrypted byte string containing fewer
than 2 lines, the deserialization step of `show` fails by crashing with
an out-of-bounds indexing error (uncaught Python `IndexError`), not with
a reported `MalformedRecord`; with at least 2 lines it never crashes and
returns exit status 0. -/
theorem c1_short_record_crashes (clipOk : Bool) (contents : Str) (vis : Bool)
    (pre : List Event) :
    ((splitNL contents).length < 2 →
      showContents clipOk contents vis pre = (pre, PyResult.crash)) ∧
    (2 ≤ (splitNL contents).length →
      (showContents clipOk contents vis pre).2 = PyResult.ret 0) := by
  unfold showContents
  rcases hs : splitNL contents with _ | ⟨p, _ | ⟨u, rest⟩⟩ <;>
    constructor <;> intro h
  · rfl
  · simp at h
  · rfl
  · simp at h
  · simp only [List.length_cons] at h; omega
  · rfl

/-- Claim C1, witness for the amended theorem at the concrete input
`"abc"`. -/
theorem c1_witness :
    (splitNL "abc".toList).length < 2 ∧
    showContents true "abc".toList false [] = ([], PyResult.crash) :=
  ⟨by decide, (c1_short_record_crashes true "abc".toList false []).1 (by decide)⟩

/-- Claim C4 (confirmed): deserializing the serialized form of a record
yields the record back, for every password and username free of embedded
newlines (the data model makes them exactly the first and the second line
of the serialized form) and for every notes string — including notes that
are empty or contain embedded newlines: the notes are reassembled from
everything at and after the third line by rejoining with newlines, never
truncated to a single line. -/
theorem c4_roundtrip (p u n : Str) (hp : '\n' ∉ p) (hu : '\n' ∉ u) :
    deserialize (TEMPLATE p u n) = some ⟨p, u, n⟩ := by
  unfold deserialize
  rw [splitNL_TEMPLATE p u n hp hu]
  have hn : 0 < (splitNL n).length := List.length_pos.mpr (splitNL_ne_nil n)
  simp [if_pos hn, joinNL_splitNL]

/-- Claim C4, witness: round trip at a record whose notes span two
lines. -/
theorem c4_witness :
    '\n' ∉ "S3cret".toList ∧
    deserialize (TEMPLATE "S3cret".toList "alice".toList "my\nnotes".toList)
      = some ⟨"S3cret".toList, "alice".toList, "my\nnotes".toList⟩ :=
  ⟨by decide, c4_roundtrip _ _ _ (by decide) (by decide)⟩

/-- Claim C8, counterexample: for the stored record with password `"a"`,
username `"b"` and empty notes, `show` still executes the notes print:
the serialized form ends in a newline, so `len(parts) > 2` holds and a
blank notes line is emitted even though the notes field is empty,
contradicting "when notes is empty, no notes output is emitted". -/
theorem c8_counterexample :
    Event.notesOut [] ∈
      (showContents true (TEMPLATE "a".toList "b".toList []) false []).1 := by decide

/-- Claim C8, amended: `show` emits the notes block iff the decrypted
contents splits into more than two newline-separated parts; for every
record serialized via `TEMPLATE` (newline-free password and username)
this always holds, so the notes value — empty or not — is always emitted
after the username: an empty notes appears as a blank printed line rather
than being suppressed. -/
theorem c8_notes_always_emitted (clipOk vis : Bool) (pre : List Event) (p u n : Str)
    (hp : '\n' ∉ p) (hu : '\n' ∉ u) :
    Event.notesOut n ∈ (showContents clipOk (TEMPLATE p u n) vis pre).1 := by
  unfold showContents
  rw [splitNL_TEMPLATE p u n hp hu]
  unfold showParts
  have hn : 0 < (splitNL n).length := List.length_pos.mpr (splitNL_ne_nil n)
  simp [if_pos hn, joinNL_splitNL]

/-- Claim C8, witness for the amended theorem: the empty notes of the
record `("a", "bob", "")` are still emitted as a notes event. -/
theorem c8_witness :
    '\n' ∉ "a".toList ∧
    Event.notesOut [] ∈
      (showContents true (TEMPLATE "a".toList "bob".toList []) false []).1 :=
  ⟨by decide, c8_notes_always_emitted true false [] _ _ _ (by decide) (by decide)⟩

/-- Claim C3 (confirmed): whenever a file named exactly `name` exists in
the storage directory, `show` uses exactly that file — its decrypted
contents are the ones processed — and no fuzzy guess occurs: no
`Guessing` notice and no `Did you mean` candidate list is ever printed,
no matter which other files contain `name` as a substring. -/
theorem c3_exact_match_wins (env : Env) (name enc : Str) (vis : Bool)
    (hfind : lookupFile env.files name = some enc) :
    show' env name vis = showContents env.clipOk (env.decrypt enc) vis [] ∧
    (∀ f, Event.guessNotice f ∉ (show' env name vis).1) ∧
    (∀ l, Event.didYouMean l ∉ (show' env name vis).1) := by
  have hshow : show' env name vis = showContents env.clipOk (env.decrypt enc) vis [] := by
    unfold show'
    rw [hfind]
  refine ⟨hshow, ?_, ?_⟩
  · intro f hf
    rw [hshow] at hf
    rcases showParts_events env.clipOk (splitNL (env.decrypt enc)) vis [] _ hf with h | h
    · simp at h
    · simp [isOutputEvent] at h
  · intro l hl
    rw [hshow] at hl
    rcases showParts_events env.clipOk (splitNL (env.decrypt enc)) vis [] _ hl with h | h
    · simp at h
    · simp [isOutputEvent] at h

/-- Claim C3, witness: `ebay.com` is matched exactly and shown, although
`ebay.com.old` also contains it as a substring. -/
theorem c3_witness :
    lookupFile envExact.files "ebay.com".toList = some "p\nalice\n".toList ∧
    show' envExact "ebay.com".toList false
      = showContents true "p\nalice\n".toList false [] :=
  ⟨by decide,
   (c3_exact_match_wins envExact "ebay.com".toList "p\nalice\n".toList false (by decide)).1⟩

/-- Claim C2 (confirmed): when no file is named exactly `name`,
resolution goes through the substring glob `*name*`.  Zero matches:
`show` fails with exit status 1 after an empty `Did you mean` block and
the file-not-found notice — the `NotFound` outcome.  More than one match:
`show` fails with exit status 1 carrying the full candidate list in the
`Did you mean` output — the `AmbiguousMatch` outcome.  Exactly one match
is the only case that auto-selects: `show` announces the guess and
proceeds on that single file. -/
theorem c2_fuzzy_resolution (env : Env) (name : Str) (vis : Bool)
    (hexact : lookupFile env.files name = none) :
    (globMatches (env.files.map Prod.fst) name = [] →
      show' env name vis
        = ([Event.didYouMean [], Event.fileNotFoundMsg (HOME ++ name)],
           PyResult.ret 1)) ∧
    (2 ≤ (globMatches (env.files.map Prod.fst) name).length →
      show' env name vis
        = ([Event.didYouMean (globMatches (env.files.map Prod.fst) name),
            Event.fileNotFoundMsg (HOME ++ name)], PyResult.ret 1)) ∧
    (∀ g, globMatches (env.files.map Prod.fst) name = [g] →
      ∃ enc, lookupFile env.files g = some enc ∧
        show' env name vis
          = showContents env.clipOk (env.decrypt enc) vis [Event.guessNotice g]) := by
  refine ⟨?_, ?_, ?_⟩
  · intro hm
    have hg : guess (env.files.map Prod.fst) name = Except.error [] := by
      simp [guess, hm]
    unfold show'
    rw [hexact, hg]
  · intro hm
    have hlen : ¬(globMatches (env.files.map Prod.fst) name).length = 1 := by omega
    have hg : guess (env.files.map Prod.fst) name
        = Except.error (globMatches (env.files.map Prod.fst) name) := by
      simp only [guess]
      rw [if_neg hlen]
    unfold show'
    rw [hexact, hg]
  · intro g hm
    have hmem : g ∈ env.files.map Prod.fst := by
      have hg : g ∈ globMatches (env.files.map Prod.fst) name := by
        rw [hm]; exact List.mem_singleton_self g
      exact List.mem_of_mem_filter hg
    obtain ⟨enc, henc⟩ := lookupFile_of_mem _ g hmem
    refine ⟨enc, henc, ?_⟩
    have hg : guess (env.files.map Prod.fst) name = Except.ok g := by
      simp [guess, hm]
    unfold show'
    rw [hexact, hg]
    have hfin : (match lookupFile env.files g with
        | some enc => showContents env.clipOk (env.decrypt enc) vis [Event.guessNotice g]
        | none => ([Event.guessNotice g, Event.fileNotFoundMsg (HOME ++ g)],
                   PyResult.ret 1))
        = showContents env.clipOk (env.decrypt enc) vis [Event.guessNotice g] := by
      rw [henc]
    exact hfin

/-- Claim C2, witness: with files `ebay.com` and `ebay.co.uk` and no file
named `ebay`, `show ebay` fails with status 1 carrying both candidates. -/
theorem c2_witness :
    lookupFile envTwo.files "ebay".toList = none ∧
    show' envTwo "ebay".toList false
      = ([Event.didYouMean ["ebay.com".toList, "ebay.co.uk".toList],
          Event.fileNotFoundMsg (HOME ++ "ebay".toList)], PyResult.ret 1) :=
  ⟨by decide, (c2_fuzzy_resolution envTwo "ebay".toList false (by decide)).2.1 (by decide)⟩

/-- Claim C9 (confirmed): when the clipboard utility is not invocable and
the stored record is well formed, `show(name, visible=false)` reports the
condition as a warning instead of aborting: the username is still
emitted, the notes are still emitted when present, and the exit status is
0 (success). -/
theorem c9_clipboard_soft_failure (env : Env) (name enc p u : Str) (rest : List Str)
    (hfind : lookupFile env.files name = some enc)
    (hparse : splitNL (env.decrypt enc) = p :: u :: rest)
    (hclip : env.clipOk = false) :
    (show' env name false).2 = PyResult.ret 0 ∧
    Event.usernameOut u ∈ (show' env name false).1 ∧
    Event.clipboardWarning p ∈ (show' env name false).1 ∧
    (rest ≠ [] → Event.notesOut (joinNL rest) ∈ (show' env name false).1) := by
  have hshow : show' env name false = showParts env.clipOk (p :: u :: rest) false [] := by
    have h1 : show' env name false = showContents env.clipOk (env.decrypt enc) false [] := by
      unfold show'
      rw [hfind]
    rw [h1]
    unfold showContents
    rw [hparse]
  rw [hshow]
  by_cases hr : rest = []
  · subst hr
    refine ⟨rfl, ?_, ?_, ?_⟩
    · simp [showParts, copy_to_clipboard, hclip]
    · simp [showParts, copy_to_clipboard, hclip]
    · intro h; exact absurd rfl h
  · have hlen : 0 < rest.length := List.length_pos.mpr hr
    refine ⟨rfl, ?_, ?_, ?_⟩
    · simp [showParts, copy_to_clipboard, hclip]
    · simp [showParts, copy_to_clipboard, hclip]
    · intro _
      simp [showParts, copy_to_clipboard, hclip, hlen]

/-- Claim C9, witness: a concrete store with `xclip` unavailable — the
warning is emitted and the exit status is still 0. -/
theorem c9_witness :
    envNoClip.clipOk = false ∧
    (show' envNoClip "gmail.com".toList false).2 = PyResult.ret 0 ∧
    Event.clipboardWarning "pw".toList ∈ (show' envNoClip "gmail.com".toList false).1 :=
  ⟨rfl,
   (c9_clipboard_soft_failure envNoClip "gmail.com".toList "pw\nalice\nnote".toList
      "pw".toList "alice".toList ["note".toList] (by decide) (by decide) rfl).1,
   (c9_clipboard_soft_failure envNoClip "gmail.com".toList "pw\nalice\nnote".toList
      "pw".toList "alice".toList ["note".toList] (by decide) (by decide) rfl).2.2.1⟩

/-- Claim C6 (confirmed): the password `create` stores is the piped stdin
bytes with surrounding whitespace stripped whenever stdin is a pipe, and
otherwise a freshly generated `pwgen(PW_LEN)` password — a string of
length exactly 19 drawn from the 62-symbol alphabet of ASCII letters and
digits (all its characters are alphanumeric). -/
theorem c6_password_source (env : Env) :
    (∀ s, env.stdinPipe = some s → createPassword env = pythonStrip s) ∧
    (env.stdinPipe = none →
      createPassword env = pwgen env.choice PW_LEN ∧
      (createPassword env).length = 19 ∧
      ∀ c ∈ createPassword env, c ∈ alphabet) ∧
    alphabet.length = 62 ∧
    (∀ c ∈ alphabet, c.isAlphanum = true) := by
  refine ⟨?_, ?_, alphabet_length, alphabet_alphanumeric⟩
  · intro s hs
    unfold createPassword
    rw [hs]
  · intro hs
    unfold createPassword
    rw [hs]
    exact ⟨rfl, pwgen_length env.choice PW_LEN, pwgen_mem env.choice PW_LEN⟩

/-- Claim C6, witness: the piped source yields the stripped bytes, the
tty source a 19-character generated password. -/
theorem c6_witness :
    envPiped.stdinPipe = some " S3cret\n".toList ∧
    createPassword envPiped = pythonStrip " S3cret\n".toList ∧
    baseEnv.stdinPipe = none ∧
    (createPassword baseEnv).length = 19 :=
  ⟨rfl, (c6_password_source envPiped).1 _ rfl, rfl,
   ((c6_password_source baseEnv).2.1 rfl).2.1⟩

/-- Claim C7, counterexample: piping a bare newline as the password makes
`create` store a record whose password — the first line of the decrypted
stored file — is empty, violating the claimed non-emptiness invariant for
piped password sources. -/
theorem c7_counterexample :
    storedPassword (create envPipedEmpty "t".toList "u".toList []).2.2 "t".toList
      = some [] := by decide

/-- Claim C7, amended: the non-emptiness invariant holds for every
generated password — when stdin is a tty, the record `create` stores
under `name` has a password of length exactly `PW_LEN = 19`, hence
non-empty — but a piped password is stored as the stripped stdin bytes
and may be empty when those bytes are whitespace-only. -/
theorem c7_generated_password_nonempty (env : Env) (name username notes : Str)
    (hs : env.stdinPipe = none)
    (hcrypto : ∀ s, env.decrypt (env.encrypt s) = s) :
    ∃ pw, storedPassword (create env name username notes).2.2 name = some pw ∧
      pw ≠ [] ∧ pw.length = PW_LEN := by
  have hcp : createPassword env = pwgen env.choice PW_LEN := by
    unfold createPassword
    rw [hs]
  have hnp : '\n' ∉ pwgen env.choice PW_LEN := pwgen_no_newline env.choice PW_LEN
  have hsplit : (splitNL (TEMPLATE (pwgen env.choice PW_LEN) username notes)).headD []
      = pwgen env.choice PW_LEN := by
    have ht : TEMPLATE (pwgen env.choice PW_LEN) username notes
        = pwgen env.choice PW_LEN ++ '\n' :: (username ++ '\n' :: notes) := by
      simp [TEMPLATE]
    rw [ht, splitNL_append _ _ hnp]
    rfl
  refine ⟨pwgen env.choice PW_LEN, ?_, ?_, pwgen_length env.choice PW_LEN⟩
  · have hfiles : (create env name username notes).2.2.files
        = writeFile env.files name
            (env.encrypt (TEMPLATE (createPassword env) username notes)) := rfl
    have hdec : (create env name username notes).2.2.decrypt = env.decrypt := rfl
    unfold storedPassword
    rw [hfiles, hdec, hcp, lookupFile_writeFile]
    simp only [Option.map_some']
    rw [hcrypto, hsplit]
  · intro hempty
    have := pwgen_length env.choice PW_LEN
    rw [hempty] at this
    simp [PW_LEN] at this

/-- Claim C7, witness for the amended theorem: a create with stdin a tty
stores a non-empty 19-character password. -/
theorem c7_witness :
    baseEnv.stdinPipe = none ∧
    ∃ pw, storedPassword (create baseEnv "t".toList "u".toList []).2.2 "t".toList
        = some pw ∧ pw ≠ [] ∧ pw.length = PW_LEN :=
  ⟨rfl, c7_generated_password_nonempty baseEnv "t".toList "u".toList []
    rfl (fun _ => rfl)⟩

/-- Claim C10 (confirmed): for every argument vector with at least one
argument after the program name whose last element is the literal
`--print`, `main` dispatches to `show(argv[1], is_visible=True)` no
matter how many arguments precede the flag; `create` is never invoked and
the file store is left unchanged. -/
theorem c10_trailing_print_dispatch (env : Env) (prog a1 : Str) (rest : List Str)
    (hlast : lastArg (a1 :: rest) = printFlag) :
    (main env (prog :: a1 :: rest)).1 = (show' env a1 true).1 ∧
    (main env (prog :: a1 :: rest)).2.1 = (show' env a1 true).2 ∧
    (main env (prog :: a1 :: rest)).2.2 = env := by
  have hvis : decide (lastArg (a1 :: rest) = printFlag) = true := by
    simp [hlast]
  simp only [main, hvis]
  simp

/-- Claim C10, witness: `kip ebay.com alice --print` performs a visible
show of `ebay.com` and leaves the store untouched. -/
theorem c10_witness :
    lastArg ["ebay.com".toList, "alice".toList, "--print".toList] = printFlag ∧
    (main baseEnv
      ["kip".toList, "ebay.com".toList, "alice".toList, "--print".toList]).2.2
      = baseEnv :=
  ⟨by decide,
   (c10_trailing_print_dispatch baseEnv "kip".toList "ebay.com".toList
      ["alice".toList, "--print".toList] (by decide)).2.2⟩

/-- Claim C5 (confirmed): whenever `main` dispatches to `create` — name
and username (and optionally notes) given, the last argument not
`--print`, so the caller's visibility flag is false — `create` writes the
encrypted record and concludes by performing `show(name)` with
`is_visible=False`, exactly the delivery the caller's flag requests
(clipboard), run against the store holding the newly written file; and
`create`'s return value is exactly the exit status of that chained show. -/
theorem c5_create_chains_show (env : Env) (prog name username : Str)
    (notesArgs : List Str) (hlen : notesArgs.length ≤ 1)
    (hvis : lastArg (name :: username :: notesArgs) ≠ printFlag) :
    ∃ env2,
      main env (prog :: name :: username :: notesArgs)
        = create env name username (notesArgs.headD []) ∧
      create env name username (notesArgs.headD [])
        = ((show' env2 name false).1, (show' env2 name false).2, env2) ∧
      env2.files = writeFile env.files name
        (env.encrypt (TEMPLATE (createPassword env) username (notesArgs.headD []))) ∧
      env2.decrypt = env.decrypt ∧ env2.clipOk = env.clipOk := by
  refine ⟨_, ?_, rfl, rfl, rfl, rfl⟩
  have hvisb : decide (lastArg (name :: username :: notesArgs) = printFlag) = false :=
    decide_eq_false hvis
  rcases notesArgs with _ | ⟨n1, _ | ⟨n2, t⟩⟩
  · simp only [main, hvisb]
    simp
  · simp only [main, hvisb]
    simp
  · simp at hlen

/-- Claim C5, witness: `kip test.com alice "my notes"` with a piped
password chains into a clipboard-mode show of the new entry. -/
theorem c5_witness :
    lastArg ["test.com".toList, "alice".toList, "my notes".toList] ≠ printFlag ∧
    ∃ env2,
      main envPiped ["kip".toList, "test.com".toList, "alice".toList, "my notes".toList]
        = create envPiped "test.com".toList "alice".toList "my notes".toList ∧
      create envPiped "test.com".toList "alice".toList "my notes".toList
        = ((show' env2 "test.com".toList false).1,
           (show' env2 "test.com".toList false).2, env2) ∧
      env2.files = writeFile envPiped.files "test.com".toList
        (envPiped.encrypt
          (TEMPLATE (createPassword envPiped) "alice".toList "my notes".toList)) ∧
      env2.decrypt = envPiped.decrypt ∧ env2.clipOk = envPiped.clipOk :=
  ⟨by decide,
   c5_create_chains_show envPiped "kip".toList "test.com".toList "alice".toList
     ["my notes".toList] (by decide) (by decide)⟩

end Kip
